import Mathlib

/-!
Shallow embedding of `src/middleware/GcpLogger.ts` (file `src/unnamed/part_001`),
an Express request/response logging middleware, together with proofs of the
specification claims about it.

Modelling conventions:
* JS strings are Lean `String`; JS string truthiness (`s || d` falls through on
  `""` and `undefined`) is `jsOrS` / `jsOrOpt`.
* `process.env` is a map `Env := String → Option String` (`none` = unset).
* `process.hrtime.bigint()` timestamps are `Int` nanosecond values supplied as
  parameters; BigInt division truncates toward zero, which is `Int.tdiv`.
* `crypto.randomUUID()` is nondeterministic, so a freshly generated identifier
  is passed in as a `freshId : String` parameter (a real UUID is never `""`).
* Functions that can throw (`JSON.stringify`, the user-supplied `getUserId`)
  return `Except Unit _`, with `.error ()` standing for a thrown exception.
* Header values in Express are `string | string[]`; `HeaderVal` mirrors that.
-/

namespace GcpLog

/-- JS `a || b` on strings: `""` (and, via `jsOrOpt`, `undefined`) is falsy. -/
def jsOrS (a b : String) : String := if a = "" then b else a

/-- JS `s.toLowerCase()`, character by character (`String.toLower` does the
same mapping; this formulation keeps kernel reduction available). -/
def jsToLower (s : String) : String := String.mk (s.toList.map Char.toLower)

/-- JS `s.toUpperCase()`, character by character. -/
def jsToUpper (s : String) : String := String.mk (s.toList.map Char.toUpper)

/-- JS `s.split("/")[0]`: the text of `s` up to (not including) its first
`/`, the whole of `s` when it has none. -/
def splitHeadSlash (s : String) : String :=
  String.mk (s.toList.takeWhile (fun c => c ≠ '/'))

/-- JS `a || b` where `a` may be `undefined` (modelled as `none`). -/
def jsOrOpt (a : Option String) (b : String) : String := jsOrS (a.getD "") b

/-- An Express header value: `string | string[]`. -/
inductive HeaderVal where
  | str (s : String)
  | arr (vs : List String)
deriving DecidableEq, Repr

/-- The `req.headers` mapping (`Object.entries` order preserved). -/
abbrev Headers := List (String × HeaderVal)

/-- Lookup of `req.headers[k]` (`none` = the key is absent, i.e. `undefined`). -/
def getHeader (hs : Headers) (k : String) : Option HeaderVal :=
  (hs.find? (fun kv => kv.1 = k)).map (fun kv => kv.2)

/-- Lookup of a header the source casts with `as string`. Express folds
duplicate occurrences of every header except `set-cookie` into one plain
string, so for the names the source reads this way (`x-request-id`,
`x-cloud-trace-context`) the array case never arises; it is modelled as
absent. -/
def strHeader (hs : Headers) (k : String) : Option String :=
  match getHeader hs k with
  | some (.str s) => some s
  | some (.arr _) => none
  | none => none

/-- `process.env` as a partial map from variable names to values. -/
abbrev Env := String → Option String

/-- `process.env[k]` read in a `||` chain: `undefined` and `""` are both falsy,
so an unset variable is conflated with the empty string. -/
def envS (env : Env) (k : String) : String := (env k).getD ""

/-- The request body as the logger can observe it: either a plain string
(`typeof req.body === "string"`), or a structured value for which
`JSON.stringify` returns a string, returns `undefined` (e.g. body
`undefined`), or throws (e.g. circular). -/
inductive JsBody where
  | str (s : String)
  | jsonOk (s : String)
  | jsonUndef
  | jsonThrows
deriving DecidableEq, Repr

/-- Result of `typeof req.body === "string" ? req.body : JSON.stringify(req.body)`:
`.error ()` = the serialization threw; `.ok none` = it returned `undefined`. -/
def rawBody : JsBody → Except Unit (Option String)
  | .str s => .ok (some s)
  | .jsonOk s => .ok (some s)
  | .jsonUndef => .ok none
  | .jsonThrows => .error ()

/-- The Express `Request` fields the logger reads. -/
structure Req where
  method : String
  url : String
  originalUrl : String
  path : String
  query : List (String × String)
  headers : Headers
  protocol : Option String
  ip : Option String
  body : JsBody

/-- A JS error object as the error interceptor observes it: `message` and
`stack` may each be `undefined` (and, being JS strings, may be `""`). -/
structure JsError where
  message : Option String
  stack : Option String
deriving DecidableEq, Repr

/-- The `GcpLoggerOptions` input type: every field optional. The user extractor
`getUserId` may throw, hence `Except`. -/
structure GcpLoggerOptions where
  redactHeaders : Option (List String) := none
  captureBody : Option Bool := none
  maxBodyLength : Option Nat := none
  getUserId : Option (Req → Except Unit (Option String)) := none
  skipPaths : Option (List (String → Bool)) := none
  projectIdEnvVar : Option String := none

/-- The resolved `Required<GcpLoggerOptions>` stored in `this.opts`. -/
structure Opts where
  redactHeaders : List String
  captureBody : Bool
  maxBodyLength : Nat
  getUserId : Req → Except Unit (Option String)
  skipPaths : List (String → Bool)
  projectIdEnvVar : String

/-- The default `skipPaths` patterns `^\/healthz$`, `^\/metrics$`,
`^\/favicon\.ico$`: anchored literal regexes, i.e. exact path equality. -/
def defaultSkipPaths : List (String → Bool) :=
  [fun p => p = "/healthz", fun p => p = "/metrics", fun p => p = "/favicon.ico"]

/-- The constructor of `GcpLogger`: applies the defaults and lower-cases every
configured redacted header name. -/
def mkOpts (o : GcpLoggerOptions) : Opts where
  redactHeaders := (o.redactHeaders.getD ["authorization", "cookie"]).map jsToLower
  captureBody := o.captureBody.getD false
  maxBodyLength := o.maxBodyLength.getD 10000
  getUserId := o.getUserId.getD (fun _ => .ok none)
  skipPaths := o.skipPaths.getD defaultSkipPaths
  projectIdEnvVar := o.projectIdEnvVar.getD "GCP_PROJECT"

/-- `shouldSkip`: true iff some configured pattern matches the path. -/
def shouldSkip (opts : Opts) (path : String) : Bool :=
  opts.skipPaths.any (fun rx => rx path)

/-- `safeHeaders`: every header whose lower-cased name is in the (already
lower-cased) `redactHeaders` list gets the value `"[REDACTED]"`; every other
value passes through unchanged. -/
def safeHeaders (opts : Opts) (hs : Headers) : Headers :=
  hs.map (fun kv =>
    (kv.1, if opts.redactHeaders.contains (jsToLower kv.1) then .str "[REDACTED]" else kv.2))

/-- `safeBody`: `undefined` when capture is off; otherwise the body text,
`"[unserializable body]"` when serialization throws, `undefined` when the text
is falsy (empty or `undefined`), and truncation with the `"…[truncated]"`
marker when the text exceeds `maxBodyLength`. Total by construction, matching
the source's never-throw contract. (JS `length`/`slice` count UTF-16 units,
the embedding counts characters; they agree on all inputs considered here.) -/
def safeBody (opts : Opts) (b : JsBody) : Option String :=
  if !opts.captureBody then none
  else
    match rawBody b with
    | .error _ => some "[unserializable body]"
    | .ok none => none
    | .ok (some raw) =>
      if raw = "" then none
      else if raw.length > opts.maxBodyLength then
        some (String.take raw opts.maxBodyLength ++ "…[truncated]")
      else some raw

/-- `buildTrace`: project id is the first truthy among
`process.env.GOOGLE_CLOUD_PROJECT`, `process.env.GCLOUD_PROJECT`,
`process.env[opts.projectIdEnvVar]`; trace id is the trace-context header text
before its first `/` (the head of `split("/")`); the composed string is
returned only when both are non-empty. Total by construction. -/
def buildTrace (opts : Opts) (env : Env) (req : Req) : Option String :=
  let projectId :=
    jsOrS (jsOrS (envS env "GOOGLE_CLOUD_PROJECT") (envS env "GCLOUD_PROJECT"))
      (envS env opts.projectIdEnvVar)
  let traceHeader := jsOrOpt (strHeader req.headers "x-cloud-trace-context") ""
  let traceId := splitHeadSlash traceHeader
  if projectId ≠ "" ∧ traceId ≠ "" then
    some ("projects/" ++ projectId ++ "/traces/" ++ traceId)
  else none

/-- `statusToSeverity`. -/
def statusToSeverity (status : Int) : String :=
  if status ≥ 500 then "ERROR"
  else if status ≥ 400 then "WARNING"
  else "INFO"

/-- The nested `httpRequest` object of a request-phase entry. The source emits
`latency` as the string interpolation of `Math.max(durationMs, 0) / 1000`
followed by `"s"`; JS floating-point formatting is not faithfully embeddable,
so the embedding records the clamped millisecond value that the source divides
by 1000 and prints. -/
structure ReqHttpInfo where
  requestMethod : String
  requestUrl : String
  status : Int
  userAgent : Option HeaderVal
  referer : Option HeaderVal
  protocol : Option String
  remoteIp : Option String
  latencyClampedMs : Int
deriving DecidableEq, Repr

/-- The request-phase `logEntry` object. `Option` fields are those the source
may set to `undefined`, which `JSON.stringify` then omits; `userId` is
`userId ?? null`, so its key is always serialized (as `null` for `none`). -/
structure RequestLogEntry where
  severity : String
  message : String
  httpRequest : ReqHttpInfo
  trace : Option String
  requestId : String
  type : String
  path : String
  query : List (String × String)
  durationMs : Int
  userId : Option String
  host : Option HeaderVal
  headers : Headers
  body : Option String
deriving DecidableEq, Repr

/-- The nested `httpRequest` object of an error-phase entry. -/
structure ErrHttpInfo where
  requestMethod : String
  requestUrl : String
  status : Int
  userAgent : Option HeaderVal
  remoteIp : Option String
deriving DecidableEq, Repr

/-- The error-phase `logEntry` object. -/
structure ErrorLogEntry where
  severity : String
  message : String
  trace : Option String
  httpRequest : ErrHttpInfo
  type : String
  requestId : String
  path : String
  userId : Option String
  stack : Option String
  headers : Headers
deriving DecidableEq, Repr

/-- What `this.request()`'s middleware did for one request, observed through
one firing of the `finish` callback: whether the high-resolution timer was
started, the `requestId` stored on the request object (`none` when the request
was skipped, so nothing was allocated), and the emission outcome.
`emission = .ok none` means no entry was produced (skip path, where no finish
callback is even registered); `.ok (some e)` means `e` was written to the
sink; `.error ()` means the finish callback threw before `console.log`
(the unguarded `getUserId` call), so no entry was emitted. -/
structure RequestPhaseOutcome where
  timerStarted : Bool
  requestIdSet : Option String
  emission : Except Unit (Option RequestLogEntry)
deriving Repr

/-- The request interceptor returned by `request()`, including the deferred
`finish` callback. `started` and `now` are the `process.hrtime.bigint()`
nanosecond readings at entry and at response finalization; `freshId` is the
`crypto.randomUUID()` value that would be drawn if one is needed;
`statusCode` is `res.statusCode` at finalization. -/
def requestInterceptor (opts : Opts) (env : Env) (req : Req)
    (started now : Int) (freshId : String) (statusCode : Int) :
    RequestPhaseOutcome :=
  if shouldSkip opts req.path then
    { timerStarted := false, requestIdSet := none, emission := .ok none }
  else
    let requestId := jsOrOpt (strHeader req.headers "x-request-id") freshId
    let trace := buildTrace opts env req
    let durationMs := Int.tdiv (now - started) 1000000
    match opts.getUserId req with
    | .error _ =>
      { timerStarted := true, requestIdSet := some requestId, emission := .error () }
    | .ok userId =>
      { timerStarted := true
        requestIdSet := some requestId
        emission := .ok (some {
          severity := statusToSeverity statusCode
          message := "HTTP request"
          httpRequest := {
            requestMethod := req.method
            requestUrl := jsOrS req.originalUrl req.url
            status := statusCode
            userAgent := getHeader req.headers "user-agent"
            referer := getHeader req.headers "referer"
            protocol := req.protocol.map jsToUpper
            remoteIp := req.ip
            latencyClampedMs := max durationMs 0 }
          trace := trace
          requestId := requestId
          type := "request"
          path := req.path
          query := req.query
          durationMs := durationMs
          userId := userId
          host := getHeader req.headers "host"
          headers := safeHeaders opts req.headers
          body := safeBody opts req.body }) }

/-- The error interceptor returned by `error()`. `err` is the failure object
(`none` models a nullish `err`); `storedRequestId` is `(req as any).requestId`
as left by the request interceptor (or `none` if it never ran); `freshId` is
the `crypto.randomUUID()` fallback. Returns the emitted entry together with
the failure object passed unchanged to `next(err)`; `.error ()` means the
unguarded `getUserId` call threw, so neither `console.error` nor `next(err)`
ran. -/
def errorInterceptor (opts : Opts) (env : Env) (err : Option JsError)
    (req : Req) (statusCode : Int) (storedRequestId : Option String)
    (freshId : String) : Except Unit (ErrorLogEntry × Option JsError) :=
  let requestId := jsOrOpt storedRequestId freshId
  match opts.getUserId req with
  | .error _ => .error ()
  | .ok userId =>
    let trace := buildTrace opts env req
    .ok ({ severity := "ERROR"
           message := jsOrOpt (err.bind (fun e => e.message)) "Unhandled error"
           trace := trace
           httpRequest := {
             requestMethod := req.method
             requestUrl := jsOrS req.originalUrl req.url
             status := statusCode
             userAgent := getHeader req.headers "user-agent"
             remoteIp := req.ip }
           type := "error"
           requestId := requestId
           path := req.path
           userId := userId
           stack := err.bind (fun e => e.stack)
           headers := safeHeaders opts req.headers }, err)

/-- Keys contributed by a field that `JSON.stringify` drops when `undefined`. -/
def optKey {α : Type} (k : String) (o : Option α) : List String :=
  if o.isSome then [k] else []

/-- The keys `JSON.stringify` serializes for a request entry's `httpRequest`,
in source order. -/
def reqHttpFields (h : ReqHttpInfo) : List String :=
  ["requestMethod", "requestUrl", "status"] ++ optKey "userAgent" h.userAgent ++
    optKey "referer" h.referer ++ optKey "protocol" h.protocol ++
    optKey "remoteIp" h.remoteIp ++ ["latency"]

/-- The keys `JSON.stringify` serializes for a request-phase entry, in source
order (`userId` is always present because of `?? null`). -/
def requestEntryFields (e : RequestLogEntry) : List String :=
  ["severity", "message", "httpRequest"] ++ optKey "trace" e.trace ++
    ["requestId", "type", "path", "query", "durationMs", "userId"] ++
    optKey "host" e.host ++ ["headers"] ++ optKey "body" e.body

/-- The keys `JSON.stringify` serializes for an error entry's `httpRequest`,
in source order. -/
def errHttpFields (h : ErrHttpInfo) : List String :=
  ["requestMethod", "requestUrl", "status"] ++ optKey "userAgent" h.userAgent ++
    optKey "remoteIp" h.remoteIp

/-- The keys `JSON.stringify` serializes for an error-phase entry, in source
order. -/
def errorEntryFields (e : ErrorLogEntry) : List String :=
  ["severity", "message"] ++ optKey "trace" e.trace ++
    ["httpRequest", "type", "requestId", "path", "userId"] ++
    optKey "stack" e.stack ++ ["headers"]

/-- Spec-side composition rule for the trace reference, written from the
spec's words: the composed string `projects/{project}/traces/{trace}` when
both the project identifier and the trace identifier are non-empty, nothing
otherwise. -/
def specCompose (p t : String) : Option String :=
  if p ≠ "" ∧ t ≠ "" then some ("projects/" ++ p ++ "/traces/" ++ t) else none

/-- The entry a request-phase outcome emitted, if any. -/
def emittedEntry (out : RequestPhaseOutcome) : Option RequestLogEntry :=
  match out.emission with
  | .ok (some e) => some e
  | _ => none

/-- The `durationMs` of the entry a request-phase outcome emitted, if any. -/
def emittedDurationMs (out : RequestPhaseOutcome) : Option Int :=
  (emittedEntry out).map (fun e => e.durationMs)

/-- The `httpRequest.latency` millisecond value of the emitted entry, if
any. -/
def emittedLatencyMs (out : RequestPhaseOutcome) : Option Int :=
  (emittedEntry out).map (fun e => e.httpRequest.latencyClampedMs)

/-- The `requestId` of the entry a request-phase outcome emitted, if any. -/
def emittedRequestId (out : RequestPhaseOutcome) : Option String :=
  (emittedEntry out).map (fun e => e.requestId)

/-- The entry the error interceptor emitted, if it did not itself throw. -/
def errEntryOf : Except Unit (ErrorLogEntry × Option JsError) → Option ErrorLogEntry
  | .ok (e, _) => some e
  | .error _ => none

/-- The failure object the error interceptor passed to `next`, if it got
there (`none` = `next(err)` never ran). -/
def errForwardedOf : Except Unit (ErrorLogEntry × Option JsError) → Option (Option JsError)
  | .ok (_, f) => some f
  | .error _ => none

/-- A user-id extractor that throws on every request. -/
def throwingExtractor : Req → Except Unit (Option String) := fun _ => .error ()

/-! Concrete fixtures for witnesses and counterexamples. -/

/-- A concrete environment exposing only `GOOGLE_CLOUD_PROJECT=proj1`. -/
def envA : Env := fun k => if k = "GOOGLE_CLOUD_PROJECT" then some "proj1" else none

/-- A concrete environment with no variable set. -/
def envNone : Env := fun _ => none

/-- A concrete request carrying typical headers, among them a mixed-case
`Authorization`, a multi-value header, an inbound request id and a Cloud
Trace context. -/
def reqA : Req where
  method := "GET"
  url := "/users"
  originalUrl := "/users?limit=2"
  path := "/users"
  query := [("limit", "2")]
  headers :=
    [("host", .str "api.example.com"),
     ("Authorization", .str "Bearer secret-token"),
     ("accept-language", .arr ["en", "he"]),
     ("x-request-id", .str "req-42"),
     ("x-cloud-trace-context", .str "abc123/1;o=1"),
     ("user-agent", .str "curl/8")]
  protocol := some "http"
  ip := some "10.0.0.1"
  body := .str "hello"

/-- `reqA` without the `x-request-id` header. -/
def reqNoId : Req :=
  { reqA with headers := reqA.headers.filter (fun kv => kv.1 ≠ "x-request-id") }

/-- `reqA` with an empty-valued `x-request-id` header. -/
def reqEmptyId : Req :=
  { reqA with headers :=
      reqNoId.headers ++ [("x-request-id", .str "")] }

/-! Theorems settling the claims. -/

/-- Membership in the constructor-lowercased redaction list is exactly the
claim's case-insensitive name match. -/
theorem contains_map_toLower (names : List String) (k : String) :
    ((names.map jsToLower).contains (jsToLower k) = true) ↔
      ∃ n ∈ names, jsToLower n = jsToLower k := by
  simp [List.contains_iff_exists_mem_beq]

/-- C1: `safeHeaders` maps every header whose name case-insensitively matches
an entry of the configured redaction list (default `authorization`,
`cookie`) to the masking token `"[REDACTED]"` and passes every other header
through unmodified, multi-value arrays included; and both the request-phase
entry and the error-phase entry carry exactly `safeHeaders` of the request's
headers as their `headers` field. -/
theorem C1_header_redaction (o : GcpLoggerOptions) (env : Env) (req : Req)
    (started now : Int) (freshId freshId2 : String) (statusCode : Int)
    (err : Option JsError) (storedId : Option String) (uid : Option String)
    (hu : (mkOpts o).getUserId req = .ok uid)
    (hskip : shouldSkip (mkOpts o) req.path = false) :
    (safeHeaders (mkOpts o) req.headers =
      req.headers.map (fun kv =>
        (kv.1,
          if ∃ n ∈ o.redactHeaders.getD ["authorization", "cookie"],
              jsToLower n = jsToLower kv.1 then
            HeaderVal.str "[REDACTED]"
          else kv.2))) ∧
    (∀ k v, (k, v) ∈ req.headers →
      ((∃ n ∈ o.redactHeaders.getD ["authorization", "cookie"],
          jsToLower n = jsToLower k) →
        (k, HeaderVal.str "[REDACTED]") ∈ safeHeaders (mkOpts o) req.headers) ∧
      ((¬ ∃ n ∈ o.redactHeaders.getD ["authorization", "cookie"],
          jsToLower n = jsToLower k) →
        (k, v) ∈ safeHeaders (mkOpts o) req.headers)) ∧
    ((emittedEntry
        (requestInterceptor (mkOpts o) env req started now freshId statusCode)).map
      (fun e => e.headers) = some (safeHeaders (mkOpts o) req.headers)) ∧
    ((errEntryOf
        (errorInterceptor (mkOpts o) env err req statusCode storedId freshId2)).map
      (fun e => e.headers) = some (safeHeaders (mkOpts o) req.headers)) := by
  have hmap : safeHeaders (mkOpts o) req.headers =
      req.headers.map (fun kv =>
        (kv.1,
          if ∃ n ∈ o.redactHeaders.getD ["authorization", "cookie"],
              jsToLower n = jsToLower kv.1 then
            HeaderVal.str "[REDACTED]"
          else kv.2)) := by
    simp only [safeHeaders, mkOpts]
    refine List.map_congr_left fun kv _ => ?_
    exact congrArg (Prod.mk kv.1) (if_congr (contains_map_toLower _ _) rfl rfl)
  refine ⟨hmap, fun k v hkv => ⟨fun hex => ?_, fun hnex => ?_⟩, ?_, ?_⟩
  · rw [hmap]
    refine List.mem_map.mpr ⟨(k, v), hkv, ?_⟩
    simp [hex]
  · rw [hmap]
    refine List.mem_map.mpr ⟨(k, v), hkv, ?_⟩
    simp [hnex]
  · simp [requestInterceptor, hskip, hu, emittedEntry]
  · simp [errorInterceptor, hu, errEntryOf]

/-- Witness for C1 at a concrete input: for the default configuration and
`reqA` (whose `Authorization` header is mixed-case), the emitted
request-phase entry's headers are exactly `safeHeaders` of the request's
headers. -/
theorem C1_header_redaction_witness :
    (emittedEntry
        (requestInterceptor (mkOpts {}) envNone reqA 0 5000000 "uuid-a" 200)).map
      (fun e => e.headers) = some (safeHeaders (mkOpts {}) reqA.headers) :=
  (C1_header_redaction {} envNone reqA 0 5000000 "uuid-a" "uuid-b" 200 none none
    none rfl (by decide)).2.2.1

/-- C3: every non-skipped request is assigned exactly one `requestId`: when
the request carries a non-empty `x-request-id` header, both the identifier
stored on the request and the emitted entry's `requestId` equal that header
value exactly; when the header is absent (or empty, which the source's `||`
treats the same way), the identifier is the freshly generated one; the
emitted entry always carries the stored identifier; and the error
interceptor reuses exactly the stored identifier, generating a fresh one
only when none was stored, i.e. when the request interceptor never ran. -/
theorem C3_requestId_assignment (o : GcpLoggerOptions) (env : Env) (req : Req)
    (started now : Int) (freshId freshId2 : String) (statusCode : Int)
    (err : Option JsError)
    (hskip : shouldSkip (mkOpts o) req.path = false)
    (hfresh : freshId ≠ "") :
    (∀ h, strHeader req.headers "x-request-id" = some h → h ≠ "" →
      (requestInterceptor (mkOpts o) env req started now freshId
        statusCode).requestIdSet = some h) ∧
    ((strHeader req.headers "x-request-id" = none ∨
        strHeader req.headers "x-request-id" = some "") →
      (requestInterceptor (mkOpts o) env req started now freshId
        statusCode).requestIdSet = some freshId) ∧
    (∀ e, emittedEntry
        (requestInterceptor (mkOpts o) env req started now freshId statusCode) =
          some e →
      some e.requestId =
        (requestInterceptor (mkOpts o) env req started now freshId
          statusCode).requestIdSet) ∧
    (∀ e, errEntryOf (errorInterceptor (mkOpts o) env err req statusCode
        (requestInterceptor (mkOpts o) env req started now freshId
          statusCode).requestIdSet freshId2) = some e →
      some e.requestId =
        (requestInterceptor (mkOpts o) env req started now freshId
          statusCode).requestIdSet) ∧
    (∀ e, errEntryOf (errorInterceptor (mkOpts o) env err req statusCode none
        freshId2) = some e → e.requestId = freshId2) := by
  have hid : (requestInterceptor (mkOpts o) env req started now freshId
      statusCode).requestIdSet =
        some (jsOrOpt (strHeader req.headers "x-request-id") freshId) := by
    cases hu : (mkOpts o).getUserId req with
    | error u => simp [requestInterceptor, hskip, hu]
    | ok u => simp [requestInterceptor, hskip, hu]
  have hne : jsOrOpt (strHeader req.headers "x-request-id") freshId ≠ "" := by
    unfold jsOrOpt jsOrS
    split
    · exact hfresh
    · assumption
  have hsome : ∀ x d : String, x ≠ "" → jsOrOpt (some x) d = x := by
    intro x d hx
    simp [jsOrOpt, jsOrS, hx]
  refine ⟨fun h hh hne2 => ?_, fun habs => ?_, fun e he => ?_, fun e he => ?_,
    fun e he => ?_⟩
  · rw [hid, hh]
    simp [jsOrOpt, jsOrS, hne2]
  · rcases habs with hn | hn <;> simp [hid, hn, jsOrOpt, jsOrS]
  · rw [hid]
    cases hu : (mkOpts o).getUserId req with
    | error u => simp [requestInterceptor, hskip, hu, emittedEntry] at he
    | ok u =>
      simp [requestInterceptor, hskip, hu, emittedEntry] at he
      rw [← he]
  · rw [hid] at he ⊢
    cases hu : (mkOpts o).getUserId req with
    | error u => simp [errorInterceptor, hu, errEntryOf] at he
    | ok u =>
      simp [errorInterceptor, hu, errEntryOf] at he
      rw [← he]
      exact congrArg some (hsome _ freshId2 hne)
  · cases hu : (mkOpts o).getUserId req with
    | error u => simp [errorInterceptor, hu, errEntryOf] at he
    | ok u =>
      simp [errorInterceptor, hu, errEntryOf] at he
      rw [← he]
      simp [jsOrOpt, jsOrS]

/-- Witness for C3 at a concrete input: `reqA` carries
`x-request-id: req-42`, and both the stored identifier and the one the error
interceptor reuses are `req-42`. -/
theorem C3_requestId_assignment_witness :
    (requestInterceptor (mkOpts {}) envNone reqA 0 5000000 "uuid-a"
      200).requestIdSet = some "req-42" :=
  (C3_requestId_assignment {} envNone reqA 0 5000000 "uuid-a" "uuid-b" 200 none
    (by decide) (by decide)).1 "req-42" (by decide) (by decide)

/-- C2: `statusToSeverity` is a pure total function over all integer status
codes `s`, returning `"ERROR"` iff `s ≥ 500`, `"WARNING"` iff
`400 ≤ s < 500`, and `"INFO"` otherwise (i.e. iff `s < 400`). -/
theorem C2_statusToSeverity_classification (s : Int) :
    (statusToSeverity s = "ERROR" ↔ 500 ≤ s) ∧
    (statusToSeverity s = "WARNING" ↔ 400 ≤ s ∧ s < 500) ∧
    (statusToSeverity s = "INFO" ↔ s < 400) := by
  unfold statusToSeverity
  split_ifs with h1 h2
  · exact ⟨⟨fun _ => h1, fun _ => rfl⟩,
      ⟨fun h => absurd h (by decide), fun h => absurd h1 (by omega)⟩,
      ⟨fun h => absurd h (by decide), fun h => absurd h1 (by omega)⟩⟩
  · exact ⟨⟨fun h => absurd h (by decide), fun h => absurd h h1⟩,
      ⟨fun _ => ⟨h2, by omega⟩, fun _ => rfl⟩,
      ⟨fun h => absurd h (by decide), fun h => absurd h2 (by omega)⟩⟩
  · exact ⟨⟨fun h => absurd h (by decide), fun h => absurd h h1⟩,
      ⟨fun h => absurd h (by decide), fun h => absurd h.1 h2⟩,
      ⟨fun _ => by omega, fun _ => rfl⟩⟩

/-- C6: `safeBody` returns nothing when `captureBody` is false; otherwise it
works on the body as text (a non-string body serialized), returns the literal
`"[unserializable body]"` marker instead of raising when serialization fails,
returns nothing when the resulting text is empty (or the serialization gave
`undefined`), truncates text longer than `maxBodyLength` to that length and
appends the truncation marker, and returns the text unchanged otherwise; in
particular with `captureBody = true`, `maxBodyLength = 10` and body
`"abcdefghijklmnop"` it returns `"abcdefghij…[truncated]"`. It never throws:
`safeBody` is a total function by construction, the thrown-serialization case
being mapped to the marker value. -/
theorem C6_safeBody_spec (o : GcpLoggerOptions) (b : JsBody) :
    ((mkOpts o).captureBody = false → safeBody (mkOpts o) b = none) ∧
    ((mkOpts o).captureBody = true →
      (rawBody b = .error () →
        safeBody (mkOpts o) b = some "[unserializable body]") ∧
      (rawBody b = .ok none → safeBody (mkOpts o) b = none) ∧
      (∀ raw, rawBody b = .ok (some raw) →
        (raw = "" → safeBody (mkOpts o) b = none) ∧
        (raw.length > (mkOpts o).maxBodyLength →
          safeBody (mkOpts o) b =
            some (raw.take (mkOpts o).maxBodyLength ++ "…[truncated]")) ∧
        (raw ≠ "" → raw.length ≤ (mkOpts o).maxBodyLength →
          safeBody (mkOpts o) b = some raw))) ∧
    safeBody (mkOpts { captureBody := some true, maxBodyLength := some 10 })
      (.str "abcdefghijklmnop") = some "abcdefghij…[truncated]" := by
  refine ⟨fun hc => ?_,
    fun hc => ⟨fun hr => ?_, fun hr => ?_,
      fun raw hr => ⟨fun he => ?_, fun hl => ?_, fun hne hl => ?_⟩⟩,
    by decide⟩
  · simp [safeBody, hc]
  · simp [safeBody, hc, hr]
  · simp [safeBody, hc, hr]
  · simp [safeBody, hc, hr, he]
  · have hne : raw ≠ "" := by
      intro he
      rw [he] at hl
      have h0 : ("" : String).length = 0 := rfl
      omega
    simp [safeBody, hc, hr, hne, hl]
  · simp [safeBody, hc, hr, hne, Nat.not_lt.mpr hl]

/-- C7: `buildTrace` resolves a project identifier by checking, in order,
`GOOGLE_CLOUD_PROJECT`, `GCLOUD_PROJECT`, then the configured variable
(default name `GCP_PROJECT`); the trace identifier is the inbound
`x-cloud-trace-context` header's text before its first `/`; the result is
`projects/{project}/traces/{trace}` when both are non-empty and nothing
otherwise — in particular `projects/proj1/traces/abc123` for project `proj1`
and header `abc123/1;o=1`, and nothing whenever no project variable is set,
regardless of the header. It never raises: `buildTrace` is total by
construction, a malformed or absent header yielding an empty trace id. -/
theorem C7_buildTrace_spec (o : GcpLoggerOptions) (env : Env) (req : Req) :
    (envS env "GOOGLE_CLOUD_PROJECT" ≠ "" →
      buildTrace (mkOpts o) env req =
        specCompose (envS env "GOOGLE_CLOUD_PROJECT")
          (splitHeadSlash (jsOrOpt (strHeader req.headers "x-cloud-trace-context") ""))) ∧
    (envS env "GOOGLE_CLOUD_PROJECT" = "" → envS env "GCLOUD_PROJECT" ≠ "" →
      buildTrace (mkOpts o) env req =
        specCompose (envS env "GCLOUD_PROJECT")
          (splitHeadSlash (jsOrOpt (strHeader req.headers "x-cloud-trace-context") ""))) ∧
    (envS env "GOOGLE_CLOUD_PROJECT" = "" → envS env "GCLOUD_PROJECT" = "" →
      buildTrace (mkOpts o) env req =
        specCompose (envS env (o.projectIdEnvVar.getD "GCP_PROJECT"))
          (splitHeadSlash (jsOrOpt (strHeader req.headers "x-cloud-trace-context") ""))) ∧
    (envS env "GOOGLE_CLOUD_PROJECT" = "" → envS env "GCLOUD_PROJECT" = "" →
      envS env (o.projectIdEnvVar.getD "GCP_PROJECT") = "" →
      buildTrace (mkOpts o) env req = none) ∧
    buildTrace (mkOpts {}) envA reqA = some "projects/proj1/traces/abc123" := by
  refine ⟨fun h1 => ?_, fun h1 h2 => ?_, fun h1 h2 => ?_, fun h1 h2 h3 => ?_, by decide⟩
  · simp [buildTrace, specCompose, jsOrS, h1]
  · simp [buildTrace, specCompose, jsOrS, h1, h2]
  · simp [buildTrace, specCompose, jsOrS, h1, h2, mkOpts]
  · simp [buildTrace, specCompose, jsOrS, h1, h2, mkOpts, h3]

/-- Counterexample to C4 as stated: with start reading `3000000` ns and
completion reading `1000000` ns (a negative measured elapsed time), the
emitted `durationMs` is `-2`, not the claimed clamp to `0`: the source
applies `Math.max(…, 0)` only inside the `latency` string, never to the
`durationMs` field. -/
theorem C4_counterexample :
    emittedDurationMs
        (requestInterceptor (mkOpts {}) envNone reqA 3000000 1000000 "uuid-a"
          200) = some (-2) ∧
    emittedDurationMs
        (requestInterceptor (mkOpts {}) envNone reqA 3000000 1000000 "uuid-a"
          200) ≠ some 0 := by
  constructor <;> decide

/-- C4 amended: the emitted `durationMs` equals the truncated elapsed
milliseconds with no clamping (so it is negative exactly when the completion
reading precedes the start reading); only the `httpRequest.latency` value
carries the zero floor `Math.max(durationMs, 0)`; and `durationMs` is
non-negative whenever completion does not precede start, which the
monotonic high-resolution clock guarantees at runtime. -/
theorem C4_durationMs_unclamped (o : GcpLoggerOptions) (env : Env) (req : Req)
    (started now : Int) (freshId : String) (statusCode : Int)
    (uid : Option String)
    (hskip : shouldSkip (mkOpts o) req.path = false)
    (hu : (mkOpts o).getUserId req = .ok uid) :
    emittedDurationMs
        (requestInterceptor (mkOpts o) env req started now freshId statusCode) =
      some (Int.tdiv (now - started) 1000000) ∧
    emittedLatencyMs
        (requestInterceptor (mkOpts o) env req started now freshId statusCode) =
      some (max (Int.tdiv (now - started) 1000000) 0) ∧
    (started ≤ now → 0 ≤ Int.tdiv (now - started) 1000000) := by
  refine ⟨?_, ?_, fun hle => ?_⟩
  · simp [requestInterceptor, hskip, hu, emittedDurationMs, emittedEntry]
  · simp [requestInterceptor, hskip, hu, emittedLatencyMs, emittedEntry]
  · exact Int.tdiv_nonneg (by omega) (by norm_num)

/-- Witness for C4's amended statement at a concrete input: a request taking
5000000 ns is logged with `durationMs = 5`. -/
theorem C4_durationMs_unclamped_witness :
    emittedDurationMs
        (requestInterceptor (mkOpts {}) envNone reqA 0 5000000 "uuid-a" 200) =
      some 5 := by
  have h := (C4_durationMs_unclamped {} envNone reqA 0 5000000 "uuid-a" 200 none
    (by decide) rfl).1
  rw [h]
  decide

/-- C5: `shouldSkip` returns true iff some pattern of the configured skip
list (default: the health-check, metrics and favicon paths) matches the
path; and for a request whose path matches, the interceptor passes control
through unchanged with zero side effects: no timer started, no `requestId`
allocated, no entry emitted. -/
theorem C5_skip_no_effects (o : GcpLoggerOptions) (env : Env) (req : Req)
    (started now : Int) (freshId : String) (statusCode : Int) :
    (shouldSkip (mkOpts o) req.path = true ↔
      ∃ rx ∈ o.skipPaths.getD defaultSkipPaths, rx req.path = true) ∧
    (shouldSkip (mkOpts o) req.path = true →
      requestInterceptor (mkOpts o) env req started now freshId statusCode =
        { timerStarted := false, requestIdSet := none, emission := .ok none }) := by
  constructor
  · simp [shouldSkip, mkOpts, List.any_eq_true]
  · intro h
    simp [requestInterceptor, h]

/-- Witness for C5 at a concrete input: the default configuration skips the
path `/healthz` with no timer, no identifier, no entry. -/
theorem C5_skip_no_effects_witness :
    requestInterceptor (mkOpts {}) envNone { reqA with path := "/healthz" } 0
        5000000 "uuid-a" 200 =
      { timerStarted := false, requestIdSet := none, emission := .ok none } :=
  (C5_skip_no_effects {} envNone { reqA with path := "/healthz" } 0 5000000
    "uuid-a" 200).2 (by decide)

/-- C8: for every failure reaching the error interceptor (whenever the
unguarded user-id extraction returns), the emitted entry has severity fixed
at `"ERROR"`; its message is the failure's message when that is present and
non-empty, and the literal `"Unhandled error"` when the failure or its
message is absent or empty (the JS falsy cases the source's `||` collapses);
its `stack` field equals the failure's stack and is present iff the failure
carries one; and the failure object is forwarded unchanged to `next` — the
logger never swallows the error. -/
theorem C8_error_entry (o : GcpLoggerOptions) (env : Env) (err : Option JsError)
    (req : Req) (statusCode : Int) (storedId : Option String)
    (freshId : String) (uid : Option String)
    (hu : (mkOpts o).getUserId req = .ok uid) :
    (∀ e, errEntryOf
        (errorInterceptor (mkOpts o) env err req statusCode storedId freshId) =
          some e →
      e.severity = "ERROR" ∧
      (∀ m, err.bind (fun x => x.message) = some m → m ≠ "" → e.message = m) ∧
      ((err.bind (fun x => x.message) = none ∨
          err.bind (fun x => x.message) = some "") →
        e.message = "Unhandled error") ∧
      e.stack = err.bind (fun x => x.stack) ∧
      (e.stack.isSome ↔ (err.bind (fun x => x.stack)).isSome)) ∧
    errForwardedOf
        (errorInterceptor (mkOpts o) env err req statusCode storedId freshId) =
      some err := by
  constructor
  · intro e he
    simp [errorInterceptor, hu, errEntryOf] at he
    rw [← he]
    refine ⟨rfl, fun m hm hmne => ?_, fun habs => ?_, rfl, Iff.rfl⟩
    · show jsOrOpt (err.bind fun x => x.message) "Unhandled error" = m
      rw [hm]
      simp [jsOrOpt, jsOrS, hmne]
    · show jsOrOpt (err.bind fun x => x.message) "Unhandled error" =
        "Unhandled error"
      rcases habs with hn | hn <;> rw [hn] <;> simp [jsOrOpt, jsOrS]
  · simp [errorInterceptor, hu, errForwardedOf]

/-- Witness for C8 at a concrete input: the failure with message `"boom"`
and no stack is forwarded unchanged to `next`. -/
theorem C8_error_entry_witness :
    errForwardedOf
        (errorInterceptor (mkOpts {}) envNone (some ⟨some "boom", none⟩) reqA
          500 (some "req-42") "uuid-b") =
      some (some ⟨some "boom", none⟩) :=
  (C8_error_entry {} envNone (some ⟨some "boom", none⟩) reqA 500
    (some "req-42") "uuid-b" none rfl).2

/-- C9 (against the code as written): the source calls the user-supplied
extractor unguarded in both interceptors, so an extractor that throws aborts
entry emission, contrary to the claim (and to the spec's stated contract
that such a failure must not abort emission): for a non-skipped request the
finish callback throws before `console.log`, emitting nothing, and the error
interceptor throws before both `console.error` and `next(err)`, emitting
nothing and not forwarding the failure. -/
theorem C9_throwing_extractor_aborts :
    (requestInterceptor (mkOpts { getUserId := some throwingExtractor }) envNone
        reqA 0 5000000 "uuid-a" 200).emission = .error () ∧
    errorInterceptor (mkOpts { getUserId := some throwingExtractor }) envNone
        (some ⟨some "boom", none⟩) reqA 500 (some "req-42") "uuid-b" =
      .error () := by
  constructor <;> rfl

/-- C10: every error-interceptor entry omits the `durationMs`, `query`,
`host` and `body` keys entirely, and its nested `httpRequest` omits
`referer`, `protocol` and `latency`; every request-phase entry carries
`durationMs`, `query` and (inside `httpRequest`) `latency`. Timing,
query-parameter, host and body data therefore appear only in request-phase
entries. -/
theorem C10_error_entry_omits_fields :
    (∀ e : ErrorLogEntry,
      "durationMs" ∉ errorEntryFields e ∧ "query" ∉ errorEntryFields e ∧
      "host" ∉ errorEntryFields e ∧ "body" ∉ errorEntryFields e ∧
      "referer" ∉ errHttpFields e.httpRequest ∧
      "protocol" ∉ errHttpFields e.httpRequest ∧
      "latency" ∉ errHttpFields e.httpRequest) ∧
    (∀ e : RequestLogEntry,
      "durationMs" ∈ requestEntryFields e ∧ "query" ∈ requestEntryFields e ∧
      "latency" ∈ reqHttpFields e.httpRequest) := by
  constructor
  · intro e
    obtain ⟨sev, msg, trace, http, ty, rid, pth, uidv, stk, hdrs⟩ := e
    obtain ⟨m, u, st, ua, ip⟩ := http
    rcases trace with _ | t <;> rcases stk with _ | s <;> rcases ua with _ | a <;>
      rcases ip with _ | i <;> simp [errorEntryFields, errHttpFields, optKey]
  · intro e
    obtain ⟨sev, msg, http, trace, rid, ty, pth, qry, dur, uidv, host, hdrs,
      body⟩ := e
    obtain ⟨m, u, st, ua, ref, proto, ip, lat⟩ := http
    rcases trace with _ | t <;> rcases host with _ | h <;>
      rcases body with _ | b <;> rcases ua with _ | a <;>
      rcases ref with _ | r <;> rcases proto with _ | p <;>
      rcases ip with _ | i <;> simp [requestEntryFields, reqHttpFields, optKey]

/-- Witness for C7 at a concrete input: with only `GOOGLE_CLOUD_PROJECT` set
to `proj1` and the trace header `abc123/1;o=1`, the first resolution rule
applies and produces the composed reference. -/
theorem C7_buildTrace_spec_witness :
    buildTrace (mkOpts {}) envA reqA =
      specCompose (envS envA "GOOGLE_CLOUD_PROJECT")
        (splitHeadSlash (jsOrOpt (strHeader reqA.headers "x-cloud-trace-context") "")) :=
  (C7_buildTrace_spec {} envA reqA).1 (by decide)

end GcpLog
